import Mathlib

/-!
Shallow embedding of the cache-aside metrics pipeline of
src/backend/src/api/anchors_cached.rs and
src/backend/src/api/corridors_cached.rs.

Machine floats (f64) are modelled as rationals wherever the code only
compares, adds, multiplies and divides them, and as reals where the code
takes a natural logarithm; i64 counters are modelled as integers.  The
asynchronous RPC calls are modelled by passing their outcome
(an Except value) into the per-request computation explicitly.
-/

namespace StellarInsights

/-- A live payment as consumed by the handlers (crate::rpc::Payment):
asset code and issuer are optional and the amount is a decimal string. -/
structure Payment where
  asset_code : Option String
  asset_issuer : Option String
  amount : String

/-- Modelled from the spec: crate::rpc::Trade is fetched by list_corridors
but its result is never consumed by the computation, so its fields are
irrelevant here. -/
structure Trade

/-- A stored anchor row from the metadata store, carrying the stored
fallback counters (crate::database Anchor model). -/
structure Anchor where
  id : String
  name : String
  stellar_account : String
  reliability_score : ℚ
  total_transactions : ℤ
  successful_transactions : ℤ
  failed_transactions : ℤ

/-- Response entity emitted by get_anchors
(anchors_cached.rs, AnchorMetricsResponse). -/
structure AnchorMetricsResponse where
  id : String
  name : String
  stellar_account : String
  reliability_score : ℚ
  asset_coverage : ℕ
  failure_rate : ℚ
  total_transactions : ℤ
  successful_transactions : ℤ
  failed_transactions : ℤ
  status : String

/-- Modelled from the spec: uuid::Uuid is opaque to the handler; only
parse failure and the nil sentinel matter to get_anchors. -/
structure Uuid where
  val : ℕ
deriving DecidableEq

/-- The nil UUID sentinel (uuid::Uuid::nil). -/
def uuidNil : Uuid := ⟨0⟩

/-- Status classification from anchors_cached.rs lines 155-161:
reliability_score at least 99 is green, at least 95 is yellow,
otherwise red. -/
def anchorStatus (reliability_score : ℚ) : String :=
  if reliability_score ≥ 99 then "green"
  else if reliability_score ≥ 95 then "yellow"
  else "red"

/-- Per-anchor body of the get_anchors fetch closure
(anchors_cached.rs lines 101-177).  parseUuid abstracts
uuid::Uuid::parse_str, assetsCount abstracts the length of
db.get_assets_by_anchor, and fetched is the outcome of
rpc_client.fetch_account_payments for this anchor (an Err is mapped to
an empty vector by the code before the count selection). -/
def anchorMetricsOf (parseUuid : String → Option Uuid) (assetsCount : Uuid → ℕ)
    (anchor : Anchor) (fetched : Except String (List Payment)) :
    AnchorMetricsResponse :=
  let anchor_id : Uuid := (parseUuid anchor.id).getD uuidNil
  let asset_coverage : ℕ := assetsCount anchor_id
  let payments : List Payment :=
    match fetched with
    | Except.ok ps => ps
    | Except.error _ => []
  let counts : ℤ × ℤ × ℤ :=
    if payments.isEmpty = false then
      ((payments.length : ℤ), (payments.length : ℤ), 0)
    else
      (anchor.total_transactions, anchor.successful_transactions,
        anchor.failed_transactions)
  let total_transactions : ℤ := counts.1
  let successful_transactions : ℤ := counts.2.1
  let failed_transactions : ℤ := counts.2.2
  let failure_rate : ℚ :=
    if total_transactions > 0 then
      ((failed_transactions : ℚ) / (total_transactions : ℚ)) * 100
    else 0
  let reliability_score : ℚ :=
    if total_transactions > 0 then
      ((successful_transactions : ℚ) / (total_transactions : ℚ)) * 100
    else anchor.reliability_score
  { id := anchor.id
    name := anchor.name
    stellar_account := anchor.stellar_account
    reliability_score := reliability_score
    asset_coverage := asset_coverage
    failure_rate := failure_rate
    total_transactions := total_transactions
    successful_transactions := successful_transactions
    failed_transactions := failed_transactions
    status := anchorStatus reliability_score }

/-- calculate_health_score from corridors_cached.rs lines 87-107.
The natural logarithm forces a real-valued model. -/
noncomputable def calculate_health_score (success_rate : ℝ)
    (total_transactions : ℤ) (volume_usd : ℝ) : ℝ :=
  let success_weight : ℝ := 0.6
  let volume_weight : ℝ := 0.2
  let transaction_weight : ℝ := 0.2
  let volume_score : ℝ :=
    if volume_usd > 0 then min ((Real.log volume_usd / 15) * 100) 100 else 0
  let transaction_score : ℝ :=
    if total_transactions > 0 then
      min ((Real.log (total_transactions : ℝ) / 10) * 100) 100
    else 0
  success_rate * success_weight + volume_score * volume_weight
    + transaction_score * transaction_weight

/-- get_liquidity_trend from corridors_cached.rs lines 109-117. -/
def get_liquidity_trend (volume_usd : ℚ) : String :=
  if volume_usd > 10000000 then "increasing"
  else if volume_usd > 1000000 then "stable"
  else "decreasing"

/-- Stored anchor row with inconsistent counters (more failures than
transactions), as the metadata store could hand back. -/
def badAnchor : Anchor :=
  { id := "a1"
    name := "Anchor One"
    stellar_account := "GA1"
    reliability_score := 50
    total_transactions := 1
    successful_transactions := 2
    failed_transactions := 3 }

/-- Stored anchor row with consistent counters. -/
def goodAnchor : Anchor :=
  { id := "a2"
    name := "Anchor Two"
    stellar_account := "GA2"
    reliability_score := 50
    total_transactions := 10
    successful_transactions := 9
    failed_transactions := 1 }

/-- Stored anchor row with zero transactions. -/
def zeroAnchor : Anchor :=
  { id := "a3"
    name := "Anchor Three"
    stellar_account := "GA3"
    reliability_score := 73
    total_transactions := 0
    successful_transactions := 0
    failed_transactions := 0 }

/-- A concrete live payment. -/
def samplePayment : Payment :=
  { asset_code := some "USD", asset_issuer := some "ISSUER1", amount := "100" }

/-- Modelled from the spec: crate::models::SortBy is accepted on the
corridor query but never read by list_corridors, so its variants are
immaterial and it is modelled as an opaque numeric carrier. -/
abbrev SortBy := ℕ

/-- A default sort order value. -/
def defaultSortBy : SortBy := 0

/-- Query parameters of GET /api/corridors
(corridors_cached.rs, ListCorridorsQuery). -/
structure ListCorridorsQuery where
  limit : ℤ
  offset : ℤ
  sort_by : SortBy
  success_rate_min : Option ℚ
  success_rate_max : Option ℚ
  volume_min : Option ℚ
  volume_max : Option ℚ
  asset_code : Option String
  time_period : Option String

/-- Response entity emitted by list_corridors
(corridors_cached.rs, CorridorResponse). -/
structure CorridorResponse where
  id : String
  source_asset : String
  destination_asset : String
  success_rate : ℚ
  total_attempts : ℤ
  successful_payments : ℤ
  failed_payments : ℤ
  average_latency_ms : ℚ
  median_latency_ms : ℚ
  p95_latency_ms : ℚ
  p99_latency_ms : ℚ
  liquidity_depth_usd : ℚ
  liquidity_volume_24h_usd : ℚ
  liquidity_trend : String
  health_score : ℝ
  last_updated : String

/-- The double-quote character. -/
def quoteChar : Char := Char.ofNat 34

/-- The backslash character. -/
def backslashChar : Char := Char.ofNat 92

/-- Escape of one character in the Rust Debug rendering of a string:
quote, backslash and the common control characters are escaped with a
backslash, all other characters stand for themselves (unicode escapes of
rare control characters are elided; no claim depends on them). -/
def escDebugChar (c : Char) : String :=
  if c = quoteChar then String.singleton backslashChar ++ String.singleton quoteChar
  else if c = backslashChar then
    String.singleton backslashChar ++ String.singleton backslashChar
  else if c = Char.ofNat 10 then String.singleton backslashChar ++ "n"
  else if c = Char.ofNat 9 then String.singleton backslashChar ++ "t"
  else if c = Char.ofNat 13 then String.singleton backslashChar ++ "r"
  else String.singleton c

/-- Body of the Rust Debug rendering of a string. -/
def escDebug (s : String) : String :=
  String.join (s.data.map escDebugChar)

/-- Rust Debug rendering of a string: the escaped body between quotes. -/
def rustDebugStr (s : String) : String :=
  String.singleton quoteChar ++ escDebug s ++ String.singleton quoteChar

/-- Rust Debug rendering of an optional string, as produced by the
format specifier used in generate_corridor_list_cache_key. -/
def fmtOptStr : Option String → String
  | none => "None"
  | some s => "Some(" ++ rustDebugStr s ++ ")"

/-- Rust Debug rendering of an optional f64 (modelled as a rational);
the exact numeral spelling is immaterial to the claims, only the
None/Some distinction and determinism are relied on. -/
def fmtOptRat : Option ℚ → String
  | none => "None"
  | some q => "Some(" ++ toString q ++ ")"

/-- The filter fingerprint of generate_corridor_list_cache_key
(corridors_cached.rs lines 121-129): a debug-style rendering of the six
optional filter fields in fixed order. -/
def filterFingerprint (params : ListCorridorsQuery) : String :=
  "sr_min:" ++ fmtOptRat params.success_rate_min ++
  "_sr_max:" ++ fmtOptRat params.success_rate_max ++
  "_vol_min:" ++ fmtOptRat params.volume_min ++
  "_vol_max:" ++ fmtOptRat params.volume_max ++
  "_asset:" ++ fmtOptStr params.asset_code ++
  "_period:" ++ fmtOptStr params.time_period

/-- Modelled from the spec: crate::cache::keys::corridor_list renders
the stable key format corridor:list:limit:offset:fingerprint. -/
def corridor_list_key (limit offset : ℤ) (filter_str : String) : String :=
  "corridor:list:" ++ toString limit ++ ":" ++ toString offset ++ ":" ++ filter_str

/-- generate_corridor_list_cache_key from corridors_cached.rs
lines 120-131. -/
def generate_corridor_list_cache_key (params : ListCorridorsQuery) : String :=
  corridor_list_key params.limit params.offset (filterFingerprint params)

/-- Lowercasing as used by the filter engine (Rust to_lowercase; the
simple per-character fold suffices for the claims). -/
def strToLower (s : String) : String :=
  String.mk (s.data.map Char.toLower)

/-- Substring test on character lists: pat occurs in the list. -/
def charListContains (pat : List Char) : List Char → Bool
  | [] => pat.isEmpty
  | c :: rest => pat.isPrefixOf (c :: rest) || charListContains pat rest

/-- Rust str::contains: s contains pat as a substring. -/
def strContains (s pat : String) : Bool :=
  charListContains pat.data s.data

/-- The filter predicate applied by list_corridors
(corridors_cached.rs lines 245-278); the early-return chain of the
closure is modelled as a conjunction of the five optional checks. -/
def corridorPasses (params : ListCorridorsQuery) (c : CorridorResponse) : Bool :=
  (match params.success_rate_min with
    | some m => !decide (c.success_rate < m)
    | none => true) &&
  (match params.success_rate_max with
    | some m => !decide (c.success_rate > m)
    | none => true) &&
  (match params.volume_min with
    | some m => !decide (c.liquidity_depth_usd < m)
    | none => true) &&
  (match params.volume_max with
    | some m => !decide (c.liquidity_depth_usd > m)
    | none => true) &&
  (match params.asset_code with
    | some a =>
        strContains (strToLower c.source_asset) (strToLower a) ||
        strContains (strToLower c.destination_asset) (strToLower a)
    | none => true)

/-- The conjunction of supplied filter predicates, stated from the
words of the spec (section 4.5): inclusive range bounds and a
case-insensitive substring match, absent predicates imposing no
constraint. -/
def SatisfiesFilters (params : ListCorridorsQuery) (c : CorridorResponse) : Prop :=
  (∀ m, params.success_rate_min = some m → m ≤ c.success_rate) ∧
  (∀ m, params.success_rate_max = some m → c.success_rate ≤ m) ∧
  (∀ m, params.volume_min = some m → m ≤ c.liquidity_depth_usd) ∧
  (∀ m, params.volume_max = some m → c.liquidity_depth_usd ≤ m) ∧
  (∀ a, params.asset_code = some a →
    (strContains (strToLower c.source_asset) (strToLower a) = true ∨
      strContains (strToLower c.destination_asset) (strToLower a) = true))

/-- The corridor bucket key of one payment
(corridors_cached.rs lines 173-184). -/
def corridorKeyOf (payment : Payment) : String :=
  let asset_from :=
    (payment.asset_code.getD "XLM") ++ ":" ++ (payment.asset_issuer.getD "native")
  let asset_to := "XLM:native"
  asset_from ++ "->" ++ asset_to

/-- Append a payment to its bucket in an insertion-ordered association
list (the in-memory keyed aggregation of the grouping engine). -/
def insertPayment (m : List (String × List Payment)) (key : String)
    (p : Payment) : List (String × List Payment) :=
  match m with
  | [] => [(key, [p])]
  | (k, ps) :: rest =>
      if k = key then (k, ps ++ [p]) :: rest
      else (k, ps) :: insertPayment rest key p

/-- Group payments into corridor buckets keyed by corridorKeyOf
(corridors_cached.rs lines 170-185). -/
def groupPayments (payments : List Payment) : List (String × List Payment) :=
  payments.foldl (fun m p => insertPayment m (corridorKeyOf p) p) []

/-- Per-bucket corridor metrics (corridors_cached.rs lines 190-242).
parseAmount abstracts Rust f64 parsing of the decimal amount strings and
now abstracts the request timestamp; a bucket key that does not split
into exactly two colon pairs around the arrow is discarded (none). -/
noncomputable def corridorOf (parseAmount : String → Option ℚ) (now : String)
    (bucket : String × List Payment) : Option CorridorResponse :=
  let corridor_key := bucket.1
  let corridor_payments := bucket.2
  let total_attempts : ℤ := (corridor_payments.length : ℤ)
  let successful_payments : ℤ := total_attempts
  let failed_payments : ℤ := 0
  let success_rate : ℚ := if total_attempts > 0 then 100 else 0
  let volume_usd : ℚ :=
    (corridor_payments.filterMap (fun p => parseAmount p.amount)).sum
  let health_score : ℝ :=
    calculate_health_score ((success_rate : ℚ) : ℝ) total_attempts
      ((volume_usd : ℚ) : ℝ)
  let liquidity_trend := get_liquidity_trend volume_usd
  let avg_latency : ℚ := 400 + success_rate * 2
  match corridor_key.splitOn "->" with
  | [src, dst] =>
      match src.splitOn ":", dst.splitOn ":" with
      | [source_code, _source_issuer], [dest_code, _dest_issuer] =>
          some
            { id := corridor_key
              source_asset := source_code
              destination_asset := dest_code
              success_rate := success_rate
              total_attempts := total_attempts
              successful_payments := successful_payments
              failed_payments := failed_payments
              average_latency_ms := avg_latency
              median_latency_ms := avg_latency * 0.75
              p95_latency_ms := avg_latency * 2.5
              p99_latency_ms := avg_latency * 4.0
              liquidity_depth_usd := volume_usd
              liquidity_volume_24h_usd := volume_usd * 0.1
              liquidity_trend := liquidity_trend
              health_score := health_score
              last_updated := now }
      | _, _ => none
  | _ => none

/-- The compute closure of list_corridors (corridors_cached.rs
lines 150-281): a failed global payment fetch is absorbed into an empty
ok result, a failed trade fetch is ignored, then payments are grouped,
scored and filtered. -/
noncomputable def computeCorridors (parseAmount : String → Option ℚ)
    (now : String) (paymentsFetch : Except String (List Payment))
    (tradesFetch : Except String (List Trade))
    (params : ListCorridorsQuery) : Except String (List CorridorResponse) :=
  match paymentsFetch with
  | Except.error _ => Except.ok []
  | Except.ok payments =>
      let _trades : List Trade :=
        match tradesFetch with
        | Except.ok t => t
        | Except.error _ => []
      let corridor_map := groupPayments payments
      let corridor_responses := corridor_map.filterMap (corridorOf parseAmount now)
      Except.ok (corridor_responses.filter (corridorPasses params))

/-- Corridor list query with every optional filter absent. -/
def qAllNone : ListCorridorsQuery :=
  { limit := 50
    offset := 0
    sort_by := defaultSortBy
    success_rate_min := none
    success_rate_max := none
    volume_min := none
    volume_max := none
    asset_code := none
    time_period := none }

/-- Same query with asset_code present as the empty string. -/
def qEmptyAsset : ListCorridorsQuery := { qAllNone with asset_code := some "" }

/-- Same query with asset_code present as the literal text null. -/
def qNullAsset : ListCorridorsQuery := { qAllNone with asset_code := some "null" }

/-- A concrete corridor response for filter-engine witnesses. -/
def corridorSample : CorridorResponse :=
  { id := "USD:ISSUER1->XLM:native"
    source_asset := "USD"
    destination_asset := "XLM"
    success_rate := 100
    total_attempts := 2
    successful_payments := 2
    failed_payments := 0
    average_latency_ms := 600
    median_latency_ms := 450
    p95_latency_ms := 1500
    p99_latency_ms := 2400
    liquidity_depth_usd := 5
    liquidity_volume_24h_usd := 0.5
    liquidity_trend := "decreasing"
    health_score := 0
    last_updated := "t0" }

/-- A concrete query whose bounds sit exactly on the sample corridor. -/
def querySample : ListCorridorsQuery :=
  { limit := 50
    offset := 0
    sort_by := defaultSortBy
    success_rate_min := some 100
    success_rate_max := some 100
    volume_min := some 5
    volume_max := some 5
    asset_code := some "usd"
    time_period := none }

end StellarInsights

namespace StellarInsights

/-- For integer counts 0 ≤ x ≤ y with y positive, the percentage
x / y * 100 computed in the handlers lies in [0, 100]. -/
theorem ratio_bounds (x y : ℤ) (hx : 0 ≤ x) (hy : 0 < y) (hxy : x ≤ y) :
    0 ≤ ((x : ℚ) / (y : ℚ)) * 100 ∧ ((x : ℚ) / (y : ℚ)) * 100 ≤ 100 := by
  have hy0 : (0 : ℚ) < (y : ℚ) := by exact_mod_cast hy
  have hx0 : (0 : ℚ) ≤ (x : ℚ) := by exact_mod_cast hx
  have h1 : (x : ℚ) / (y : ℚ) ≤ 1 := by
    rw [div_le_one hy0]; exact_mod_cast hxy
  constructor
  · positivity
  · linarith

/-- Length of the debug rendering of an absent optional string. -/
theorem fmtOptStr_none_length : (fmtOptStr none).length = 4 := rfl

/-- Length of the debug rendering of an absent optional rational. -/
theorem fmtOptRat_none_length : (fmtOptRat none).length = 4 := rfl

/-- Length of the debug rendering of a present optional string: the
wrapper contributes eight characters around the escaped body. -/
theorem fmtOptStr_some_length (s : String) :
    (fmtOptStr (some s)).length = 8 + (escDebug s).length := by
  have l1 : ("Some(" : String).length = 5 := rfl
  have l2 : (")" : String).length = 1 := rfl
  have l3 : (String.singleton quoteChar).length = 1 := rfl
  simp only [fmtOptStr, rustDebugStr, String.length_append, l1, l2, l3]
  omega

/-- Length of the debug rendering of a present optional rational: the
wrapper contributes six characters around the numeral. -/
theorem fmtOptRat_some_length (q : ℚ) :
    (fmtOptRat (some q)).length = 6 + (toString q).length := by
  have l1 : ("Some(" : String).length = 5 := rfl
  have l2 : (")" : String).length = 1 := rfl
  simp only [fmtOptRat, String.length_append, l1, l2]
  omega

/-- C4: the status emitted by get_anchors is green exactly when the
reliability score is at least 99, yellow exactly when it is at least 95
and below 99, and red exactly when it is below 95; in particular 99 maps
to green, 98.999 and 95 map to yellow, and 94.999 maps to red. -/
theorem c4_status_classification :
    (∀ r : ℚ,
      (anchorStatus r = "green" ↔ 99 ≤ r) ∧
      (anchorStatus r = "yellow" ↔ 95 ≤ r ∧ r < 99) ∧
      (anchorStatus r = "red" ↔ r < 95)) ∧
    anchorStatus 99 = "green" ∧
    anchorStatus (98999 / 1000) = "yellow" ∧
    anchorStatus 95 = "yellow" ∧
    anchorStatus (94999 / 1000) = "red" := by
  refine ⟨fun r => ?_, ?_, ?_, ?_, ?_⟩
  · unfold anchorStatus
    split_ifs with h1 h2
    · refine ⟨iff_of_true rfl h1, iff_of_false (by decide) ?_, iff_of_false (by decide) ?_⟩
      · rintro ⟨h3, h4⟩; linarith
      · intro h3; linarith
    · refine ⟨iff_of_false (by decide) h1,
        iff_of_true rfl ⟨h2, by push_neg at h1; exact h1⟩,
        iff_of_false (by decide) ?_⟩
      intro h3; linarith
    · refine ⟨iff_of_false (by decide) h1,
        iff_of_false (by decide) ?_,
        iff_of_true rfl (by push_neg at h2; exact h2)⟩
      rintro ⟨h3, h4⟩; exact h2 h3
  · norm_num [anchorStatus]
  · norm_num [anchorStatus]
  · norm_num [anchorStatus]
  · norm_num [anchorStatus]

/-- C8: get_liquidity_trend returns increasing exactly above 10,000,000,
stable exactly on (1,000,000, 10,000,000], and decreasing exactly at or
below 1,000,000; in particular 10,000,001 is increasing, 10,000,000 and
1,000,001 are stable, and 1,000,000 is decreasing. -/
theorem c8_liquidity_trend_classification :
    (∀ v : ℚ,
      (get_liquidity_trend v = "increasing" ↔ 10000000 < v) ∧
      (get_liquidity_trend v = "stable" ↔ 1000000 < v ∧ v ≤ 10000000) ∧
      (get_liquidity_trend v = "decreasing" ↔ v ≤ 1000000)) ∧
    get_liquidity_trend 10000001 = "increasing" ∧
    get_liquidity_trend 10000000 = "stable" ∧
    get_liquidity_trend 1000001 = "stable" ∧
    get_liquidity_trend 1000000 = "decreasing" := by
  refine ⟨fun v => ?_, ?_, ?_, ?_, ?_⟩
  · unfold get_liquidity_trend
    split_ifs with h1 h2
    · refine ⟨iff_of_true rfl h1, iff_of_false (by decide) ?_, iff_of_false (by decide) ?_⟩
      · rintro ⟨h3, h4⟩; linarith
      · intro h3; linarith
    · refine ⟨iff_of_false (by decide) h1,
        iff_of_true rfl ⟨h2, by push_neg at h1; exact h1⟩,
        iff_of_false (by decide) ?_⟩
      intro h3; linarith
    · refine ⟨iff_of_false (by decide) h1,
        iff_of_false (by decide) ?_,
        iff_of_true rfl (by push_neg at h2; exact h2)⟩
      rintro ⟨h3, h4⟩; exact h2 h3
  · norm_num [get_liquidity_trend]
  · norm_num [get_liquidity_trend]
  · norm_num [get_liquidity_trend]
  · norm_num [get_liquidity_trend]

/-- C2 counterexample: the claim asserts failure_rate is always within
[0,100] for any non-negative counts, but with the stored counters of
badAnchor (total 1, successful 2, failed 3) and a failed live fetch,
get_anchors emits failure_rate 300. -/
theorem c2_rate_bounds_counterexample :
    100 < (anchorMetricsOf (fun _ => none) (fun _ => 0) badAnchor
      (Except.error "rpc down")).failure_rate := by
  have h : (anchorMetricsOf (fun _ => none) (fun _ => 0) badAnchor
      (Except.error "rpc down")).failure_rate
        = ((badAnchor.failed_transactions : ℚ)
            / (badAnchor.total_transactions : ℚ)) * 100 := by
    rw [show (anchorMetricsOf (fun _ => none) (fun _ => 0) badAnchor
        (Except.error "rpc down")).failure_rate
          = (if badAnchor.total_transactions > 0 then
              ((badAnchor.failed_transactions : ℚ)
                / (badAnchor.total_transactions : ℚ)) * 100
            else 0) from rfl]
    norm_num [badAnchor]
  rw [h]
  norm_num [badAnchor]

/-- C2 amended: whenever the counts actually used (which get_anchors
emits verbatim) are consistent (successful and failed non-negative and
each at most total), the emitted failure_rate lies in [0,100], and the
emitted reliability_score lies in [0,100] whenever the emitted total is
positive; the live-count branch (a successful non-empty fetch) satisfies
the bounds unconditionally, with no assumption on the stored counters.
(The original claim fails for stored counters with failed greater than
total.) -/
theorem c2_rate_bounds_amended (parseUuid : String → Option Uuid)
    (assetsCount : Uuid → ℕ) (a : Anchor) :
    (∀ p ps,
      (0 ≤ (anchorMetricsOf parseUuid assetsCount a
          (Except.ok (p :: ps))).failure_rate ∧
        (anchorMetricsOf parseUuid assetsCount a
          (Except.ok (p :: ps))).failure_rate ≤ 100) ∧
      (0 ≤ (anchorMetricsOf parseUuid assetsCount a
          (Except.ok (p :: ps))).reliability_score ∧
        (anchorMetricsOf parseUuid assetsCount a
          (Except.ok (p :: ps))).reliability_score ≤ 100)) ∧
    (∀ fetched : Except String (List Payment),
      0 ≤ (anchorMetricsOf parseUuid assetsCount a fetched).successful_transactions →
      0 ≤ (anchorMetricsOf parseUuid assetsCount a fetched).failed_transactions →
      (anchorMetricsOf parseUuid assetsCount a fetched).successful_transactions ≤
        (anchorMetricsOf parseUuid assetsCount a fetched).total_transactions →
      (anchorMetricsOf parseUuid assetsCount a fetched).failed_transactions ≤
        (anchorMetricsOf parseUuid assetsCount a fetched).total_transactions →
      (0 ≤ (anchorMetricsOf parseUuid assetsCount a fetched).failure_rate ∧
        (anchorMetricsOf parseUuid assetsCount a fetched).failure_rate ≤ 100) ∧
      (0 < (anchorMetricsOf parseUuid assetsCount a fetched).total_transactions →
        0 ≤ (anchorMetricsOf parseUuid assetsCount a fetched).reliability_score ∧
        (anchorMetricsOf parseUuid assetsCount a fetched).reliability_score ≤ 100)) := by
  have live : ∀ (p : Payment) (ps : List Payment),
      (0 ≤ (anchorMetricsOf parseUuid assetsCount a
          (Except.ok (p :: ps))).failure_rate ∧
        (anchorMetricsOf parseUuid assetsCount a
          (Except.ok (p :: ps))).failure_rate ≤ 100) ∧
      (0 ≤ (anchorMetricsOf parseUuid assetsCount a
          (Except.ok (p :: ps))).reliability_score ∧
        (anchorMetricsOf parseUuid assetsCount a
          (Except.ok (p :: ps))).reliability_score ≤ 100) := by
    intro p ps
    have hlen : (0 : ℤ) < ((p :: ps).length : ℤ) := by
      simp [List.length_cons]
    have hne : ((((p :: ps).length : ℤ)) : ℚ) ≠ 0 := by
      have : (0 : ℚ) < (((p :: ps).length : ℤ) : ℚ) := by exact_mod_cast hlen
      exact ne_of_gt this
    have hf : (anchorMetricsOf parseUuid assetsCount a
        (Except.ok (p :: ps))).failure_rate
        = (if ((p :: ps).length : ℤ) > 0 then
            (((0 : ℤ) : ℚ) / (((p :: ps).length : ℤ) : ℚ)) * 100
          else 0) := rfl
    have hr : (anchorMetricsOf parseUuid assetsCount a
        (Except.ok (p :: ps))).reliability_score
        = (if ((p :: ps).length : ℤ) > 0 then
            ((((p :: ps).length : ℤ) : ℚ) / (((p :: ps).length : ℤ) : ℚ)) * 100
          else a.reliability_score) := rfl
    constructor
    · rw [hf, if_pos hlen]
      norm_num
    · rw [hr, if_pos hlen, div_self hne]
      norm_num
  refine ⟨live, fun fetched => ?_⟩
  cases fetched with
  | error e =>
      have hf : (anchorMetricsOf parseUuid assetsCount a (Except.error e)).failure_rate
          = (if a.total_transactions > 0 then
              ((a.failed_transactions : ℚ) / (a.total_transactions : ℚ)) * 100
            else 0) := rfl
      have ht : (anchorMetricsOf parseUuid assetsCount a (Except.error e)).total_transactions
          = a.total_transactions := rfl
      have hs : (anchorMetricsOf parseUuid assetsCount a
          (Except.error e)).successful_transactions = a.successful_transactions := rfl
      have hd : (anchorMetricsOf parseUuid assetsCount a
          (Except.error e)).failed_transactions = a.failed_transactions := rfl
      have hr : (anchorMetricsOf parseUuid assetsCount a (Except.error e)).reliability_score
          = (if a.total_transactions > 0 then
              ((a.successful_transactions : ℚ) / (a.total_transactions : ℚ)) * 100
            else a.reliability_score) := rfl
      rw [hf, ht, hs, hd, hr]
      intro h2 h3 h4 h5
      constructor
      · split_ifs with hpos
        · exact ratio_bounds _ _ h3 hpos h5
        · norm_num
      · intro hpos
        rw [if_pos hpos]
        exact ratio_bounds _ _ h2 hpos h4
  | ok ps =>
      cases ps with
      | nil =>
          have hf : (anchorMetricsOf parseUuid assetsCount a (Except.ok [])).failure_rate
              = (if a.total_transactions > 0 then
                  ((a.failed_transactions : ℚ) / (a.total_transactions : ℚ)) * 100
                else 0) := rfl
          have ht : (anchorMetricsOf parseUuid assetsCount a (Except.ok [])).total_transactions
              = a.total_transactions := rfl
          have hs : (anchorMetricsOf parseUuid assetsCount a
              (Except.ok [])).successful_transactions = a.successful_transactions := rfl
          have hd : (anchorMetricsOf parseUuid assetsCount a
              (Except.ok [])).failed_transactions = a.failed_transactions := rfl
          have hr : (anchorMetricsOf parseUuid assetsCount a (Except.ok [])).reliability_score
              = (if a.total_transactions > 0 then
                  ((a.successful_transactions : ℚ) / (a.total_transactions : ℚ)) * 100
                else a.reliability_score) := rfl
          rw [hf, ht, hs, hd, hr]
          intro h2 h3 h4 h5
          constructor
          · split_ifs with hpos
            · exact ratio_bounds _ _ h3 hpos h5
            · norm_num
          · intro hpos
            rw [if_pos hpos]
            exact ratio_bounds _ _ h2 hpos h4
      | cons p rest =>
          intro _ _ _ _
          exact ⟨(live p rest).1, fun _ => (live p rest).2⟩

/-- C2 witness: the fallback conjunct at the consistent stored counters
of goodAnchor with a failed live fetch, and the unconditional live
conjunct at badAnchor, whose stored counters are inconsistent, with one
live payment. -/
theorem c2_rate_bounds_witness :
    (0 ≤ (anchorMetricsOf (fun _ => none) (fun _ => 0) goodAnchor
        (Except.error "x")).successful_transactions ∧
      0 ≤ (anchorMetricsOf (fun _ => none) (fun _ => 0) goodAnchor
        (Except.error "x")).failed_transactions ∧
      (anchorMetricsOf (fun _ => none) (fun _ => 0) goodAnchor
        (Except.error "x")).successful_transactions ≤
        (anchorMetricsOf (fun _ => none) (fun _ => 0) goodAnchor
          (Except.error "x")).total_transactions ∧
      (anchorMetricsOf (fun _ => none) (fun _ => 0) goodAnchor
        (Except.error "x")).failed_transactions ≤
        (anchorMetricsOf (fun _ => none) (fun _ => 0) goodAnchor
          (Except.error "x")).total_transactions) ∧
    ((0 ≤ (anchorMetricsOf (fun _ => none) (fun _ => 0) goodAnchor
        (Except.error "x")).failure_rate ∧
      (anchorMetricsOf (fun _ => none) (fun _ => 0) goodAnchor
        (Except.error "x")).failure_rate ≤ 100) ∧
    (0 < (anchorMetricsOf (fun _ => none) (fun _ => 0) goodAnchor
        (Except.error "x")).total_transactions →
      0 ≤ (anchorMetricsOf (fun _ => none) (fun _ => 0) goodAnchor
        (Except.error "x")).reliability_score ∧
      (anchorMetricsOf (fun _ => none) (fun _ => 0) goodAnchor
        (Except.error "x")).reliability_score ≤ 100)) ∧
    (0 ≤ (anchorMetricsOf (fun _ => none) (fun _ => 0) badAnchor
        (Except.ok [samplePayment])).failure_rate ∧
      (anchorMetricsOf (fun _ => none) (fun _ => 0) badAnchor
        (Except.ok [samplePayment])).failure_rate ≤ 100) :=
  ⟨⟨by decide, by decide, by decide, by decide⟩,
    (c2_rate_bounds_amended (fun _ => none) (fun _ => 0) goodAnchor).2
      (Except.error "x") (by decide) (by decide) (by decide) (by decide),
    ((c2_rate_bounds_amended (fun _ => none) (fun _ => 0) badAnchor).1
      samplePayment []).1⟩

/-- C3: per anchor, a successful non-empty live fetch yields
total = successful = length of the payment list and failed = 0; a failed
fetch, or a successful but empty fetch, yields the stored counters
verbatim; and whenever the emitted total is zero the emitted
reliability_score is the stored one unchanged. -/
theorem c3_live_vs_fallback (parseUuid : String → Option Uuid)
    (assetsCount : Uuid → ℕ) (a : Anchor) :
    (∀ p ps,
      (anchorMetricsOf parseUuid assetsCount a
          (Except.ok (p :: ps))).total_transactions = ((p :: ps).length : ℤ) ∧
      (anchorMetricsOf parseUuid assetsCount a
          (Except.ok (p :: ps))).successful_transactions = ((p :: ps).length : ℤ) ∧
      (anchorMetricsOf parseUuid assetsCount a
          (Except.ok (p :: ps))).failed_transactions = 0) ∧
    (∀ e,
      (anchorMetricsOf parseUuid assetsCount a
          (Except.error e)).total_transactions = a.total_transactions ∧
      (anchorMetricsOf parseUuid assetsCount a
          (Except.error e)).successful_transactions = a.successful_transactions ∧
      (anchorMetricsOf parseUuid assetsCount a
          (Except.error e)).failed_transactions = a.failed_transactions) ∧
    ((anchorMetricsOf parseUuid assetsCount a
          (Except.ok [])).total_transactions = a.total_transactions ∧
      (anchorMetricsOf parseUuid assetsCount a
          (Except.ok [])).successful_transactions = a.successful_transactions ∧
      (anchorMetricsOf parseUuid assetsCount a
          (Except.ok [])).failed_transactions = a.failed_transactions) ∧
    (∀ fetched,
      (anchorMetricsOf parseUuid assetsCount a fetched).total_transactions = 0 →
      (anchorMetricsOf parseUuid assetsCount a fetched).reliability_score
          = a.reliability_score) := by
  refine ⟨fun p ps => ⟨rfl, rfl, rfl⟩, fun e => ⟨rfl, rfl, rfl⟩, ⟨rfl, rfl, rfl⟩,
    fun fetched h0 => ?_⟩
  cases fetched with
  | error e =>
      have ht : (anchorMetricsOf parseUuid assetsCount a
          (Except.error e)).total_transactions = a.total_transactions := rfl
      have hr : (anchorMetricsOf parseUuid assetsCount a
          (Except.error e)).reliability_score
          = (if a.total_transactions > 0 then
              ((a.successful_transactions : ℚ) / (a.total_transactions : ℚ)) * 100
            else a.reliability_score) := rfl
      rw [ht] at h0
      rw [hr, if_neg (by omega)]
  | ok ps =>
      cases ps with
      | nil =>
          have ht : (anchorMetricsOf parseUuid assetsCount a
              (Except.ok [])).total_transactions = a.total_transactions := rfl
          have hr : (anchorMetricsOf parseUuid assetsCount a
              (Except.ok [])).reliability_score
              = (if a.total_transactions > 0 then
                  ((a.successful_transactions : ℚ) / (a.total_transactions : ℚ)) * 100
                else a.reliability_score) := rfl
          rw [ht] at h0
          rw [hr, if_neg (by omega)]
      | cons p rest =>
          have ht : (anchorMetricsOf parseUuid assetsCount a
              (Except.ok (p :: rest))).total_transactions
              = ((p :: rest).length : ℤ) := rfl
          rw [ht] at h0
          simp [List.length_cons] at h0
          omega

/-- C3 witness: the live branch at one concrete payment, the fallback
branch at a failed fetch, and the stored reliability at a zero-count
anchor. -/
theorem c3_live_vs_fallback_witness :
    (anchorMetricsOf (fun _ => none) (fun _ => 0) goodAnchor
        (Except.ok [samplePayment])).failed_transactions = 0 ∧
    (anchorMetricsOf (fun _ => none) (fun _ => 0) goodAnchor
        (Except.error "x")).total_transactions = goodAnchor.total_transactions ∧
    (anchorMetricsOf (fun _ => none) (fun _ => 0) zeroAnchor
        (Except.error "x")).reliability_score = zeroAnchor.reliability_score :=
  ⟨((c3_live_vs_fallback (fun _ => none) (fun _ => 0) goodAnchor).1
      samplePayment []).2.2,
    ((c3_live_vs_fallback (fun _ => none) (fun _ => 0) goodAnchor).2.1 "x").1,
    (c3_live_vs_fallback (fun _ => none) (fun _ => 0) zeroAnchor).2.2.2
      (Except.error "x") rfl⟩

/-- C10: get_anchors always emits the stored anchor id string unchanged,
and the nil-UUID sentinel appears only as the argument of the
asset-coverage lookup whenever the stored id fails to parse. -/
theorem c10_id_passthrough (parseUuid : String → Option Uuid)
    (assetsCount : Uuid → ℕ) (a : Anchor)
    (fetched : Except String (List Payment)) :
    (anchorMetricsOf parseUuid assetsCount a fetched).id = a.id ∧
    (anchorMetricsOf parseUuid assetsCount a fetched).asset_coverage
        = assetsCount ((parseUuid a.id).getD uuidNil) ∧
    (parseUuid a.id = none →
      (anchorMetricsOf parseUuid assetsCount a fetched).asset_coverage
          = assetsCount uuidNil) := by
  refine ⟨rfl, rfl, fun h => ?_⟩
  rw [show (anchorMetricsOf parseUuid assetsCount a fetched).asset_coverage
      = assetsCount ((parseUuid a.id).getD uuidNil) from rfl, h]
  rfl

/-- C1 counterexample: the claim asserts the health score is never
negative for any non-negative volume, but at success_rate 0, zero
attempts and volume_usd one half the volume score is
100 * ln(1/2) / 15 < 0 and the min with 100 does not clamp it below,
so the health score is negative. -/
theorem c1_health_score_counterexample :
    calculate_health_score 0 0 (1 / 2) < 0 := by
  have hlog : Real.log (1 / 2) < 0 :=
    Real.log_neg (by norm_num) (by norm_num)
  have hterm : (Real.log (1 / 2) / 15) * 100 < 0 := by nlinarith
  have hmin : min ((Real.log ((1 : ℝ) / 2) / 15) * 100) 100 < 0 :=
    lt_of_le_of_lt (min_le_left _ _) hterm
  simp only [calculate_health_score]
  rw [if_pos (by norm_num : ((1 : ℝ) / 2) > 0),
    if_neg (by norm_num : ¬ ((0 : ℤ) > 0))]
  nlinarith [hmin]

/-- C1 amended: the health score lies in [0,100] for success_rate in
[0,100], any non-negative total_attempts, and volume_usd equal to 0 or
at least 1.  (For volume_usd strictly between 0 and 1 the volume score
is negative and the health score can drop below 0, as the
counterexample shows; the claim holds once that case is excluded.) -/
theorem c1_health_score_amended (success_rate : ℝ) (total_attempts : ℤ)
    (volume_usd : ℝ) (h1 : 0 ≤ success_rate) (h2 : success_rate ≤ 100)
    (h3 : 0 ≤ total_attempts) (h4 : volume_usd = 0 ∨ 1 ≤ volume_usd) :
    0 ≤ calculate_health_score success_rate total_attempts volume_usd ∧
    calculate_health_score success_rate total_attempts volume_usd ≤ 100 := by
  have hv : 0 ≤ (if volume_usd > 0 then
        min ((Real.log volume_usd / 15) * 100) 100 else 0) ∧
      (if volume_usd > 0 then
        min ((Real.log volume_usd / 15) * 100) 100 else 0) ≤ 100 := by
    split_ifs with hpos
    · rcases h4 with h | h
      · exact absurd hpos (by rw [h]; exact lt_irrefl 0)
      · have hlog : 0 ≤ Real.log volume_usd := Real.log_nonneg h
        refine ⟨le_min ?_ (by norm_num), min_le_right _ _⟩
        exact mul_nonneg (div_nonneg hlog (by norm_num)) (by norm_num)
    · norm_num
  have htr : 0 ≤ (if total_attempts > 0 then
        min ((Real.log ((total_attempts : ℤ) : ℝ) / 10) * 100) 100 else 0) ∧
      (if total_attempts > 0 then
        min ((Real.log ((total_attempts : ℤ) : ℝ) / 10) * 100) 100 else 0) ≤ 100 := by
    split_ifs with hpos
    · have hone : (1 : ℤ) ≤ total_attempts := hpos
      have hone' : (1 : ℝ) ≤ ((total_attempts : ℤ) : ℝ) := by exact_mod_cast hone
      have hlog : 0 ≤ Real.log ((total_attempts : ℤ) : ℝ) := Real.log_nonneg hone'
      refine ⟨le_min ?_ (by norm_num), min_le_right _ _⟩
      exact mul_nonneg (div_nonneg hlog (by norm_num)) (by norm_num)
    · norm_num
  simp only [calculate_health_score]
  constructor
  · nlinarith [hv.1, htr.1]
  · nlinarith [hv.2, htr.2]

/-- C1 witness: the amended bounds at success rate 100, one attempt and
zero volume. -/
theorem c1_health_score_witness :
    (0 ≤ (100 : ℝ) ∧ (100 : ℝ) ≤ 100 ∧ (0 : ℤ) ≤ 1 ∧
      ((0 : ℝ) = 0 ∨ (1 : ℝ) ≤ (0 : ℝ))) ∧
    (0 ≤ calculate_health_score 100 1 0 ∧
      calculate_health_score 100 1 0 ≤ 100) :=
  ⟨⟨by norm_num, by norm_num, by norm_num, Or.inl rfl⟩,
    c1_health_score_amended 100 1 0 (by norm_num) (by norm_num)
      (by norm_num) (Or.inl rfl)⟩

/-- C5: whenever the global live payment fetch fails, the compute step
of list_corridors returns an empty corridor list successfully instead of
propagating the failure. -/
theorem c5_fail_open (parseAmount : String → Option ℚ) (now e : String)
    (tradesFetch : Except String (List Trade)) (params : ListCorridorsQuery) :
    computeCorridors parseAmount now (Except.error e) tradesFetch params
      = Except.ok [] := rfl

/-- C6: the corridor list cache key is a deterministic function of the
query, and the filter fingerprint distinguishes each absent optional
filter from any present value; in particular all-filters-absent differs
from asset_code present as the empty string, and an absent asset_code
differs from one present as the literal text null. -/
theorem c6_cache_key_fingerprint :
    (∀ p q : ListCorridorsQuery, p = q →
      generate_corridor_list_cache_key p = generate_corridor_list_cache_key q) ∧
    (∀ lim off sb srmax vmin vmax ac tp (m : ℚ),
      filterFingerprint ⟨lim, off, sb, some m, srmax, vmin, vmax, ac, tp⟩ ≠
      filterFingerprint ⟨lim, off, sb, none, srmax, vmin, vmax, ac, tp⟩) ∧
    (∀ lim off sb srmin vmin vmax ac tp (m : ℚ),
      filterFingerprint ⟨lim, off, sb, srmin, some m, vmin, vmax, ac, tp⟩ ≠
      filterFingerprint ⟨lim, off, sb, srmin, none, vmin, vmax, ac, tp⟩) ∧
    (∀ lim off sb srmin srmax vmax ac tp (m : ℚ),
      filterFingerprint ⟨lim, off, sb, srmin, srmax, some m, vmax, ac, tp⟩ ≠
      filterFingerprint ⟨lim, off, sb, srmin, srmax, none, vmax, ac, tp⟩) ∧
    (∀ lim off sb srmin srmax vmin ac tp (m : ℚ),
      filterFingerprint ⟨lim, off, sb, srmin, srmax, vmin, some m, ac, tp⟩ ≠
      filterFingerprint ⟨lim, off, sb, srmin, srmax, vmin, none, ac, tp⟩) ∧
    (∀ lim off sb srmin srmax vmin vmax tp (s : String),
      filterFingerprint ⟨lim, off, sb, srmin, srmax, vmin, vmax, some s, tp⟩ ≠
      filterFingerprint ⟨lim, off, sb, srmin, srmax, vmin, vmax, none, tp⟩) ∧
    (∀ lim off sb srmin srmax vmin vmax ac (s : String),
      filterFingerprint ⟨lim, off, sb, srmin, srmax, vmin, vmax, ac, some s⟩ ≠
      filterFingerprint ⟨lim, off, sb, srmin, srmax, vmin, vmax, ac, none⟩) ∧
    generate_corridor_list_cache_key qAllNone ≠
      generate_corridor_list_cache_key qEmptyAsset ∧
    filterFingerprint qAllNone ≠ filterFingerprint qNullAsset := by
  refine ⟨fun p q h => by rw [h], ?_, ?_, ?_, ?_, ?_, ?_, by decide, by decide⟩ <;>
    · intro lim off sb f1 f2 f3 f4 f5 x h
      have hl := congrArg String.length h
      simp only [filterFingerprint, String.length_append, fmtOptStr_some_length,
        fmtOptRat_some_length, fmtOptStr_none_length, fmtOptRat_none_length] at hl
      omega

/-- C6 witness: determinism discharged at the concrete all-absent
query. -/
theorem c6_cache_key_fingerprint_witness :
    generate_corridor_list_cache_key qAllNone
      = generate_corridor_list_cache_key qAllNone :=
  c6_cache_key_fingerprint.1 qAllNone qAllNone rfl

/-- The boolean filter of list_corridors accepts a corridor exactly when
it satisfies every supplied predicate. -/
theorem corridorPasses_iff_satisfies (params : ListCorridorsQuery)
    (c : CorridorResponse) :
    corridorPasses params c = true ↔ SatisfiesFilters params c := by
  obtain ⟨lim, off, sb, srmin, srmax, vmin, vmax, ac, tp⟩ := params
  unfold corridorPasses SatisfiesFilters
  cases srmin <;> cases srmax <;> cases vmin <;> cases vmax <;> cases ac <;>
    simp [not_lt, and_assoc]

/-- C7: a corridor appears in the filtered output exactly when it is in
the computed set and satisfies all supplied predicates, with inclusive
volume and success-rate bounds, case-insensitive substring matching on
the asset code, and no constraint from absent predicates. -/
theorem c7_filter_engine (params : ListCorridorsQuery)
    (cs : List CorridorResponse) (c : CorridorResponse) :
    c ∈ cs.filter (corridorPasses params) ↔
      c ∈ cs ∧ SatisfiesFilters params c := by
  rw [List.mem_filter, corridorPasses_iff_satisfies]

/-- C7 witness: the sample corridor, whose liquidity depth equals both
the supplied volume_min and volume_max and whose success rate equals
both rate bounds, passes the filter (inclusive bounds, case-insensitive
asset match). -/
theorem c7_filter_engine_witness :
    corridorSample ∈ List.filter (corridorPasses querySample) [corridorSample] :=
  (c7_filter_engine querySample [corridorSample] corridorSample).mpr
    ⟨List.mem_singleton.mpr rfl,
      fun m hm => by injection hm with h; rw [← h]; norm_num [querySample, corridorSample],
      fun m hm => by injection hm with h; rw [← h]; norm_num [querySample, corridorSample],
      fun m hm => by injection hm with h; rw [← h]; norm_num [querySample, corridorSample],
      fun m hm => by injection hm with h; rw [← h]; norm_num [querySample, corridorSample],
      fun a ha => by
        injection ha with h
        rw [← h]
        left
        decide⟩

/-- C9: neither the cache key nor the compute step of list_corridors
reads sort_by: two queries identical up to sort_by produce the same
cache key and the same computed response. -/
theorem c9_sort_by_irrelevant (parseAmount : String → Option ℚ)
    (now : String) (paymentsFetch : Except String (List Payment))
    (tradesFetch : Except String (List Trade))
    (params : ListCorridorsQuery) (s : SortBy) :
    generate_corridor_list_cache_key { params with sort_by := s }
        = generate_corridor_list_cache_key params ∧
    computeCorridors parseAmount now paymentsFetch tradesFetch
        { params with sort_by := s }
      = computeCorridors parseAmount now paymentsFetch tradesFetch params :=
  ⟨rfl, rfl⟩

/-- C10 witness: at a parser that always fails, the emitted id is the
stored id and the coverage lookup receives the nil sentinel. -/
theorem c10_id_passthrough_witness :
    (anchorMetricsOf (fun _ => none) (fun u => u.val) goodAnchor
        (Except.error "x")).id = goodAnchor.id ∧
    (anchorMetricsOf (fun _ => none) (fun u => u.val) goodAnchor
        (Except.error "x")).asset_coverage = uuidNil.val :=
  ⟨(c10_id_passthrough (fun _ => none) (fun u => u.val) goodAnchor
      (Except.error "x")).1,
    (c10_id_passthrough (fun _ => none) (fun u => u.val) goodAnchor
      (Except.error "x")).2.2 rfl⟩

end StellarInsights
